import Mathlib

/-!
Verification of the result-classification and rendering state machine of the
kyoutei-ai browser client (frontend/src/pages/RaceAnalysis.jsx, frontend/src/api/client.js,
frontend/src/App.jsx), as a shallow embedding in Lean 4.

JavaScript values are embedded as follows: a possibly-absent field is an
`Option`; a JS number is a rational (`ℚ`), with the special value `NaN`
modelled by the separate type `JsNum`; optional chaining `a?.b` is
`Option.bind`; a JSX child expression renders `undefined` as no text, while
a template literal stringifies `undefined` to the text "undefined".
Rendered views keep the dynamic data the JSX inserts into the markup;
static markup is not modelled.
-/

deriving instance DecidableEq for Except

namespace Kyotei

/-- A JS number that may be the IEEE value NaN (reached in the source only by
arithmetic on `undefined`); finite values are kept exact as rationals. -/
inductive JsNum where
  | num (q : ℚ)
  | nan
deriving DecidableEq

/-- The integer that ES `Number.prototype.toFixed` picks when rounding
`p * q` to an integer: the integer closest to `p * q`, ties resolved to the
larger integer, i.e. the floor of `p * q + 1/2`.  Computed on the
numerator/denominator representation (denominators are positive), so that
the definition evaluates by kernel reduction. -/
def jsRoundScaled (p : Nat) (q : ℚ) : Int :=
  Int.fdiv (2 * p * q.num + q.den) (2 * q.den)

/-- Embeds toFixed at one digit: round at one decimal digit and print sign, integer part
and one fractional digit.  (The sign of an IEEE negative zero is not
modelled; no claim depends on it.) -/
def toFixed1 (q : ℚ) : String :=
  let n : Int := jsRoundScaled 10 q
  (if n < 0 then "-" else "") ++ toString (n.natAbs / 10) ++ "." ++ toString (n.natAbs % 10)

/-- Embeds toFixed at zero digits on a JS number: `"NaN"` for NaN, otherwise the rounded
integer (rounding as in `jsRoundScaled`, scale 1). -/
def JsNum.toFixed0 : JsNum → String
  | .nan => "NaN"
  | .num q =>
    let n : Int := jsRoundScaled 1 q
    (if n < 0 then "-" else "") ++ toString n.natAbs

/-- JS multiplication `x * 100` applied to a possibly-absent number:
`undefined * 100` is NaN. -/
def jsMul100 (x : Option ℚ) : JsNum :=
  match x with
  | some q => .num (q * 100)
  | none => .nan

/-- A JSX child expression: `undefined` (and `null`) render as no text. -/
def jsxText (x : Option String) : String := x.getD ""

/-- A JS template literal interpolation: `undefined` is stringified to the
text "undefined". -/
def jsTemplateStr (x : Option String) : String :=
  match x with
  | some s => s
  | none => "undefined"

/-- JS truthiness of a possibly-absent string: `undefined` and the empty
string are falsy. -/
def jsTruthyStr (x : Option String) : Bool :=
  match x with
  | some s => !(s == "")
  | none => false

/-- JS truthiness of a possibly-absent boolean: `undefined` is falsy. -/
def jsTruthyBool (x : Option Bool) : Bool := x.getD false

/-- Embeds the array slice method for non-negative indices. -/
def jsSlice (l : List α) (s e : Nat) : List α := (l.drop s).take (e - s)

/-! ## Data model: the analysis response -/

/-- One element of `recommendations.tickets`. -/
structure Ticket where
  combination : String
  type : String
  amount : ℚ
  odds : ℚ
  purpose : Option String
deriving DecidableEq

/-- One element of `predictions.honmei` / `predictions.chuuane`. -/
structure Prediction where
  boats : List Nat
  confidence : ℚ
deriving DecidableEq

/-- The `recommendations` object; every field the view reads may be absent. -/
structure Recommendations where
  strategy : Option String
  tickets : Option (List Ticket)
  total_investment : Option ℚ
deriving DecidableEq

/-- The `predictions` object. -/
structure Predictions where
  honmei : Option (List Prediction)
  chuuane : Option (List Prediction)
deriving DecidableEq

/-- The `data_quality` object. -/
structure DataQuality where
  checks : Option (List String)
  score : Option ℚ
deriving DecidableEq

/-- A well-typed analysis response: every field the component reads, each
possibly absent. -/
structure Response where
  status : Option String
  should_skip : Option Bool
  skip_reasons : Option (List String)
  quality_score : Option ℚ
  message : Option String
  stability : Option ℚ
  expected_value : Option ℚ
  category : Option String
  description : Option String
  recommendations : Option Recommendations
  predictions : Option Predictions
  data_quality : Option DataQuality
deriving DecidableEq

/-! ## Rendered views (the dynamic content of each render branch) -/

/-- Dynamic content of the skip-recommended branch (RaceAnalysis.jsx 63-103). -/
structure SkipView where
  reasons : List String
  stability : Option ℚ
  evText : String
deriving DecidableEq

/-- Dynamic content of the data-insufficient branch (RaceAnalysis.jsx 106-126). -/
structure InsufficientView where
  messageText : String
  scoreText : String
deriving DecidableEq

/-- One rendered ticket row (RaceAnalysis.jsx 182-198). -/
structure TicketRow where
  combinationText : String
  typeText : String
  amount : ℚ
  odds : ℚ
  purposeText : Option String
deriving DecidableEq

/-- One rendered prediction row (RaceAnalysis.jsx 215-231). -/
structure PredRow where
  boatsText : String
  confidence : ℚ
deriving DecidableEq

/-- Dynamic content of the full-analysis branch (RaceAnalysis.jsx 141-264). -/
structure FullView where
  venue : String
  raceNumber : Nat
  categoryClass : String
  iconText : String
  descriptionText : String
  stability : Option ℚ
  evText : String
  strategyText : String
  ticketRows : List TicketRow
  totalInvestment : Option ℚ
  honmeiRows : List PredRow
  chuuaneRows : List PredRow
  checkRows : List String
  qualityScoreText : String
deriving DecidableEq

/-- The five mutually exclusive view states of the component. -/
inductive ViewState where
  | Loading
  | Failed (message : String)
  | SkipRecommended (v : SkipView)
  | DataInsufficient (v : InsufficientView)
  | FullAnalysis (v : FullView)
deriving DecidableEq

/-! ## Rendering definitions, translated from RaceAnalysis.jsx -/

/-- The `categoryColors` object literal (lines 129-133); bracket lookup with
an unknown or `undefined` key yields `undefined`. -/
def categoryColors (c : Option String) : Option String :=
  if c == some "stable" then some "bg-green-100 text-green-800"
  else if c == some "mixed" then some "bg-yellow-100 text-yellow-800"
  else if c == some "upset" then some "bg-red-100 text-red-800"
  else none

/-- The `categoryIcons` object literal (lines 135-139). -/
def categoryIcons (c : Option String) : Option String :=
  if c == some "stable" then some "🟢"
  else if c == some "mixed" then some "🟡"
  else if c == some "upset" then some "🔴"
  else none

/-- The catch handler (line 22): the thrown message when truthy, else the
generic failure text (the JS or-else on err.message). -/
def jsErrMessage (m : Option String) : String :=
  match m with
  | some s => if s == "" then "分析に失敗しました" else s
  | none => "分析に失敗しました"

/-- One ticket row (lines 182-198); the purpose paragraph is guarded by JS
truthiness, so it renders only when present and non-empty. -/
def renderTicket (t : Ticket) : TicketRow :=
  { combinationText := t.combination
    typeText := t.type
    amount := t.amount
    odds := t.odds
    purposeText := if jsTruthyStr t.purpose then t.purpose else none }

/-- One prediction row (lines 215-231): the boats joined with hyphens. -/
def renderPred (p : Prediction) : PredRow :=
  { boatsText := String.intercalate "-" (p.boats.map toString)
    confidence := p.confidence }

/-- Expected-value cell of the skip branch (line 89): the optional-chained
toFixed of the expected value followed by a percent sign, no sign marker. -/
def skipEvCell (r : Response) : String :=
  jsxText (r.expected_value.map toFixed1) ++ "%"

/-- Expected-value cell of the full-analysis branch (line 168): a literal
plus sign precedes the formatted number, then a percent sign. -/
def fullEvCell (r : Response) : String :=
  "+" ++ jsxText (r.expected_value.map toFixed1) ++ "%"

/-- Skip-recommended view content (lines 63-103). -/
def skipView (r : Response) : SkipView :=
  { reasons := r.skip_reasons.getD []
    stability := r.stability
    evText := skipEvCell r }

/-- Data-insufficient view content (lines 106-126); the message is rendered
with no default, and the score is `(result.quality_score * 100).toFixed(0)`
with no default, so an absent score renders the NaN text. -/
def insufficientView (r : Response) : InsufficientView :=
  { messageText := jsxText r.message
    scoreText := (jsMul100 r.quality_score).toFixed0 }

/-- Full-analysis view content (lines 141-264). -/
def fullView (venue : String) (raceNumber : Nat) (r : Response) : FullView :=
  { venue := venue
    raceNumber := raceNumber
    categoryClass :=
      "inline-block px-4 py-2 rounded-full font-bold " ++ jsTemplateStr (categoryColors r.category)
    iconText := jsxText (categoryIcons r.category)
    descriptionText := jsxText r.description
    stability := r.stability
    evText := fullEvCell r
    strategyText := jsxText (r.recommendations.bind (·.strategy))
    ticketRows :=
      match r.recommendations.bind (·.tickets) with
      | some ts => ts.map renderTicket
      | none => []
    totalInvestment := r.recommendations.bind (·.total_investment)
    honmeiRows :=
      match r.predictions.bind (·.honmei) with
      | some l => (jsSlice l 0 3).map renderPred
      | none => []
    chuuaneRows :=
      match r.predictions.bind (·.chuuane) with
      | some l => (jsSlice l 0 3).map renderPred
      | none => []
    checkRows := (r.data_quality.bind (·.checks)).getD []
    qualityScoreText := (jsMul100 (r.data_quality.bind (·.score))).toFixed0 }

/-- The render function of `RaceAnalysis` (lines 31-265): the sequential
branch structure of the component body.  `loading` is checked first, then
the error string (JS truthiness), then the skip condition
the skip condition (truthy should_skip, or status equal to "skip"), then
the test of status equal to "data_insufficient"; the remaining case reads
the category of the result without a guard, which throws when it is null
(modelled by `Except.error`). -/
def render (venue : String) (raceNumber : Nat) (loading : Bool)
    (error : Option String) (result : Option Response) : Except String ViewState :=
  if loading then .ok .Loading
  else if jsTruthyStr error then .ok (.Failed (error.getD ""))
  else
    match result with
    | some r =>
      if jsTruthyBool r.should_skip || r.status == some "skip" then
        .ok (.SkipRecommended (skipView r))
      else if r.status == some "data_insufficient" then
        .ok (.DataInsufficient (insufficientView r))
      else
        .ok (.FullAnalysis (fullView venue raceNumber r))
    | none => .error "TypeError: cannot read properties of null"

/-! ## Session states (component state during one analysis session) -/

/-- The three states of one analysis session: the request pending, resolved
with a response body, or failed.  The effect body sets `loading` true and
`error` null before the await; `finally` clears `loading` only after the
result or error has been stored. -/
inductive SessionState where
  | pending
  | resolved (r : Response)
  | failed (msg : String)
deriving DecidableEq

/-- The `loading` flag of a session state. -/
def SessionState.loadingFlag : SessionState → Bool
  | .pending => true
  | _ => false

/-- The `result` state of a session state. -/
def SessionState.resultFlag : SessionState → Option Response
  | .resolved r => some r
  | _ => none

/-- The `error` state of a session state. -/
def SessionState.errorFlag : SessionState → Option String
  | .failed m => some m
  | _ => none

/-- Render the component in a given session state. -/
def renderSession (venue : String) (raceNumber : Nat) (s : SessionState) :
    Except String ViewState :=
  render venue raceNumber s.loadingFlag s.errorFlag s.resultFlag

/-! ## Request orchestration (the useEffect of lines 13-29)

The effect body has no cancellation guard and no session token: every
request that resolves applies `setResult`/`setError` and clears `loading`,
whether or not a newer session has started since.  `lastStarted` is
specification bookkeeping (not component state) recording the most recently
initiated request, used to state the ordering claim. -/

/-- Component state plus in-flight request bookkeeping. -/
structure OrchState where
  loading : Bool
  result : Option Response
  error : Option String
  nextReq : Nat
  inflight : List (Nat × Nat)
  lastStarted : Option (Nat × Nat)
deriving DecidableEq

/-- Events of the orchestration: a new session starting for a race number,
and an in-flight request resolving with a body or an error. -/
inductive OEvent where
  | start (race : Nat)
  | arriveOk (id : Nat) (data : Response)
  | arriveErr (id : Nat) (m : Option String)
deriving DecidableEq

/-- One orchestration step.  `start` mirrors the effect body before the
await (`setLoading(true); setError(null)`, issue the request); the arrival
events mirror the continuation after the await — applied unconditionally to
component state, exactly as in the source, which never compares the
resolving request against the current session. -/
def ostep (s : OrchState) (e : OEvent) : OrchState :=
  match e with
  | .start race =>
    { s with loading := true
             error := none
             nextReq := s.nextReq + 1
             inflight := s.inflight ++ [(s.nextReq, race)]
             lastStarted := some (s.nextReq, race) }
  | .arriveOk id data =>
    if s.inflight.any (fun p => p.1 == id) then
      { s with result := some data
               loading := false
               inflight := s.inflight.filter (fun p => p.1 != id) }
    else s
  | .arriveErr id m =>
    if s.inflight.any (fun p => p.1 == id) then
      { s with error := some (jsErrMessage m)
               loading := false
               inflight := s.inflight.filter (fun p => p.1 != id) }
    else s

/-- Run a sequence of orchestration events. -/
def orun (s : OrchState) (es : List OEvent) : OrchState := es.foldl ostep s

/-- Initial component state (`useState(true)`, `useState(null)`, `useState(null)`). -/
def oinit : OrchState :=
  { loading := true, result := none, error := none,
    nextReq := 0, inflight := [], lastStarted := none }

end Kyotei

namespace Kyotei

/-- Whether an Except value is a success (the render did not throw). -/
def isOk : Except ε α → Bool
  | .ok _ => true
  | .error _ => false

/-- For every non-null, well-typed response the render function reaches a
view and never the throwing case, whatever the loading and error state. -/
theorem render_total (v : String) (n : Nat) (loading : Bool)
    (error : Option String) (r : Response) :
    isOk (render v n loading error (some r)) = true := by
  unfold render
  repeat' split
  all_goals first | rfl | simp_all

/-- Concrete response used for the skip-precedence evidence: both
discriminants set, with the status naming the data-insufficient kind. -/
def respSkipBoth : Response :=
  { status := some "data_insufficient", should_skip := some true,
    skip_reasons := some ["欠場あり"], quality_score := none, message := none,
    stability := some 40, expected_value := some (-5), category := none,
    description := none, recommendations := none, predictions := none,
    data_quality := none }

/-- Concrete data-insufficient response with no optional field present. -/
def respBare : Response :=
  { status := some "data_insufficient", should_skip := none, skip_reasons := none,
    quality_score := none, message := none, stability := none, expected_value := none,
    category := none, description := none, recommendations := none, predictions := none,
    data_quality := none }

/-- Concrete success response as produced for race 11. -/
def respRace11 : Response :=
  { status := none, should_skip := none, skip_reasons := none, quality_score := none,
    message := none, stability := some 75, expected_value := none,
    category := some "stable", description := some "安定 11R",
    recommendations := none, predictions := none, data_quality := none }

/-- Concrete success response as produced for race 12. -/
def respRace12 : Response :=
  { respRace11 with description := some "安定 12R" }

/-- Concrete success response with a category outside the fixed lookup. -/
def respUnknownCat : Response :=
  { respRace11 with category := some "weird" }

/-- Event trace: a session for race 11 starts, a session for race 12 starts
while the first request is still in flight, the second request resolves,
then the first request resolves late. -/
def staleTrace : List OEvent :=
  [.start 11, .start 12, .arriveOk 1 respRace12, .arriveOk 0 respRace11]

/-- Claim C1: for every non-null response with should_skip true or status
"skip", and no error, classification yields the skip-recommended view
populated from stability, expected_value and skip_reasons (empty when
absent); the skip check precedes the data-insufficiency check and the
success branch, so it wins even when status is "data_insufficient". -/
theorem C1_skip_precedence (v : String) (n : Nat) (r : Response)
    (h : r.should_skip = some true ∨ r.status = some "skip") :
    render v n false none (some r)
      = .ok (.SkipRecommended
          { reasons := r.skip_reasons.getD []
            stability := r.stability
            evText := skipEvCell r }) := by
  have hc : (jsTruthyBool r.should_skip || r.status == some "skip") = true := by
    rcases h with h | h
    · simp [jsTruthyBool, h]
    · simp [h]
  simp [render, jsTruthyStr, hc, skipView]

/-- Witness for C1 at a concrete response carrying both discriminants. -/
theorem C1_skip_precedence_witness :
    (respSkipBoth.should_skip = some true ∨ respSkipBoth.status = some "skip")
    ∧ respSkipBoth.status = some "data_insufficient"
    ∧ render "大村" 12 false none (some respSkipBoth)
      = .ok (.SkipRecommended
          { reasons := ["欠場あり"], stability := some 40, evText := "-5.0%" }) := by
  refine ⟨Or.inl rfl, rfl, ?_⟩
  rw [C1_skip_precedence "大村" 12 respSkipBoth (Or.inl rfl)]
  decide

/-- Claim C2 evidence: the effect of lines 13-29 has no cancellation guard,
so when a second session starts before the first request resolves and the
first response arrives last, the first response overwrites the state: the
final rendered state reflects the superseded request, not the last request
initiated. -/
theorem C2_stale_response_overwrites :
    (orun oinit staleTrace).lastStarted = some (1, 12)
    ∧ (orun oinit staleTrace).result = some respRace11
    ∧ respRace11 ≠ respRace12
    ∧ (orun oinit staleTrace).loading = false
    ∧ render "大村" 12 (orun oinit staleTrace).loading (orun oinit staleTrace).error
        (orun oinit staleTrace).result
      = .ok (.FullAnalysis (fullView "大村" 12 respRace11)) := by
  decide

/-- Claim C3: for every well-typed response the classifier and the
full-analysis rendering are total (never reach the throwing case), and each
missing optional nested object (recommendations, predictions, data_quality)
renders exactly as the object with no fields present. -/
theorem C3_total_and_optional_empty (v : String) (n : Nat) (r : Response)
    (loading : Bool) (error : Option String) :
    isOk (render v n loading error (some r)) = true
    ∧ fullView v n { r with recommendations := none }
      = fullView v n { r with recommendations := some ⟨none, none, none⟩ }
    ∧ fullView v n { r with predictions := none }
      = fullView v n { r with predictions := some ⟨none, none⟩ }
    ∧ fullView v n { r with data_quality := none }
      = fullView v n { r with data_quality := some ⟨none, none⟩ } :=
  ⟨render_total v n loading error r, rfl, rfl, rfl⟩

/-- Claim C4 counterexample: on the response with status
"data_insufficient" and no message or quality_score, the view renders the
message as empty text (no generic default) and the quality score as the NaN
text, not the text that a defaulted score of 0 would produce. -/
theorem C4_claimed_defaults_counterexample :
    render "大村" 12 false none (some respBare)
      = .ok (.DataInsufficient { messageText := "", scoreText := "NaN" })
    ∧ ("NaN" : String) ≠ "0" := by
  decide

/-- Claim C4 as amended: for every non-null response with status
"data_insufficient" and should_skip not true, and no error, classification
yields the data-insufficient view populated directly from message and
quality_score with no defaults: an absent message renders as empty text and
an absent quality_score renders as the NaN score text. -/
theorem C4_no_defaults_amended (v : String) (n : Nat) (r : Response)
    (h : r.status = some "data_insufficient") (hs : r.should_skip ≠ some true) :
    render v n false none (some r)
      = .ok (.DataInsufficient
          { messageText := jsxText r.message
            scoreText := (jsMul100 r.quality_score).toFixed0 }) := by
  have h1 : jsTruthyBool r.should_skip = false := by
    cases hb : r.should_skip with
    | none => rfl
    | some b =>
      cases b with
      | true => exact absurd hb hs
      | false => rfl
  have h2 : (r.status == some "skip") = false := by simp [h]
  have h3 : (r.status == some "data_insufficient") = true := by simp [h]
  simp [render, jsTruthyStr, h1, h2, h3, insufficientView]

/-- Witness for the amended C4 at the bare data-insufficient response. -/
theorem C4_no_defaults_amended_witness :
    render "大村" 12 false none (some respBare)
      = .ok (.DataInsufficient { messageText := "", scoreText := "NaN" })
    ∧ respBare.should_skip ≠ some true := by
  refine ⟨?_, by decide⟩
  rw [C4_no_defaults_amended "大村" 12 respBare rfl (by decide)]
  decide

/-- Claim C5: in every session state in which the request has produced
neither an error nor a response, the component renders the loading view and
nothing else; in particular classification with null error and null
response yields Loading, never a crash. -/
theorem C5_loading_before_outcome (v : String) (n : Nat) (s : SessionState)
    (he : s.errorFlag = none) (hr : s.resultFlag = none) :
    renderSession v n s = .ok .Loading := by
  cases s with
  | pending => rfl
  | resolved r => simp [SessionState.resultFlag] at hr
  | failed m => simp [SessionState.errorFlag] at he

/-- Witness for C5 at the pending session state. -/
theorem C5_loading_before_outcome_witness :
    renderSession "大村" 12 .pending = .ok .Loading :=
  C5_loading_before_outcome "大村" 12 .pending rfl rfl

/-- Claim C6: for every non-null error the component renders the failed
view carrying the error message when it is a truthy string and the generic
failure message otherwise, regardless of the response value; and starting a
new session (the user re-triggering analysis) returns the machine to the
loading state with the error cleared. -/
theorem C6_error_failed_view (v : String) (n : Nat) (m : Option String)
    (result : Option Response) :
    render v n false (some (jsErrMessage m)) result = .ok (.Failed (jsErrMessage m))
    ∧ jsErrMessage none = "分析に失敗しました"
    ∧ (∀ s : String, s ≠ "" → jsErrMessage (some s) = s)
    ∧ (∀ (st : OrchState) (race : Nat),
        (ostep st (.start race)).loading = true ∧ (ostep st (.start race)).error = none) := by
  refine ⟨?_, rfl, ?_, fun st race => ⟨rfl, rfl⟩⟩
  · have ht : jsTruthyStr (some (jsErrMessage m)) = true := by
      unfold jsTruthyStr jsErrMessage
      cases m with
      | none => decide
      | some s =>
        by_cases hs : s == ""
        · simp [hs]
        · simp [hs]
    simp [render, ht]
  · intro s hs
    simp [jsErrMessage, hs]

/-- Witness for C6 at a concrete passed-through message. -/
theorem C6_error_failed_view_witness :
    render "大村" 12 false (some (jsErrMessage (some "timeout"))) none
      = .ok (.Failed (jsErrMessage (some "timeout")))
    ∧ jsErrMessage (some "timeout") = "timeout" :=
  ⟨(C6_error_failed_view "大村" 12 (some "timeout") none).1,
   (C6_error_failed_view "大村" 12 (some "timeout") none).2.2.1 "timeout" (by decide)⟩

/-- Claim C7: the rendered honmei rows are exactly the first
min(3, length) elements of predictions.honmei in order (empty when
predictions or honmei is absent), and the chuuane rows obey the same
truncation rule. -/
theorem C7_top3_truncation (v : String) (n : Nat) (r : Response) :
    (fullView v n r).honmeiRows
      = (((r.predictions.bind (·.honmei)).getD []).take 3).map renderPred
    ∧ (fullView v n r).honmeiRows.length
      = min 3 ((r.predictions.bind (·.honmei)).getD []).length
    ∧ (fullView v n r).chuuaneRows
      = (((r.predictions.bind (·.chuuane)).getD []).take 3).map renderPred
    ∧ (fullView v n r).chuuaneRows.length
      = min 3 ((r.predictions.bind (·.chuuane)).getD []).length := by
  have key : ∀ o : Option (List Prediction),
      (match o with
        | some l => (jsSlice l 0 3).map renderPred
        | none => []) = ((o.getD []).take 3).map renderPred := by
    intro o
    cases o <;> simp [jsSlice]
  refine ⟨key _, ?_, key _, ?_⟩ <;>
    simp only [fullView, key, List.length_map, List.length_take]

/-- Claim C8: the rendered ticket rows are the element-for-element image of
recommendations.tickets in the original order: same length, and the
combination of each row is the combination of the ticket at the same
position; nothing is reordered, removed, deduplicated or added. -/
theorem C8_tickets_passthrough (v : String) (n : Nat) (r : Response) :
    (fullView v n r).ticketRows
      = ((r.recommendations.bind (·.tickets)).getD []).map renderTicket
    ∧ (fullView v n r).ticketRows.length
      = ((r.recommendations.bind (·.tickets)).getD []).length
    ∧ (fullView v n r).ticketRows.map (·.combinationText)
      = ((r.recommendations.bind (·.tickets)).getD []).map (·.combination) := by
  have key : (fullView v n r).ticketRows
      = ((r.recommendations.bind (·.tickets)).getD []).map renderTicket := by
    simp only [fullView]
    cases r.recommendations.bind (·.tickets) <;> simp
  refine ⟨key, ?_, ?_⟩
  · simp [key]
  · simp [key, List.map_map]
    exact fun a _ => rfl

/-- Claim C9: the category presentation is the fixed lookup sending stable,
mixed and upset to their icon and style; for a success response with any
other category the render does not throw, the icon renders as no text and
the category style slot holds no entry of the lookup (the template literal
stringifies the undefined lookup). -/
theorem C9_category_presentation (v : String) (n : Nat) (r : Response) (c : String)
    (hc : r.category = some c)
    (h1 : c ≠ "stable") (h2 : c ≠ "mixed") (h3 : c ≠ "upset") :
    categoryColors (some "stable") = some "bg-green-100 text-green-800"
    ∧ categoryColors (some "mixed") = some "bg-yellow-100 text-yellow-800"
    ∧ categoryColors (some "upset") = some "bg-red-100 text-red-800"
    ∧ categoryIcons (some "stable") = some "🟢"
    ∧ categoryIcons (some "mixed") = some "🟡"
    ∧ categoryIcons (some "upset") = some "🔴"
    ∧ (fullView v n r).iconText = ""
    ∧ (fullView v n r).categoryClass
      = "inline-block px-4 py-2 rounded-full font-bold undefined"
    ∧ isOk (render v n false none (some r)) = true := by
  have hcol : categoryColors r.category = none := by
    simp [categoryColors, hc, h1, h2, h3]
  have hico : categoryIcons r.category = none := by
    simp [categoryIcons, hc, h1, h2, h3]
  refine ⟨by decide, by decide, by decide, by decide, by decide, by decide, ?_, ?_,
    render_total v n false none r⟩
  · simp [fullView, hico, jsxText]
  · simp [fullView, hcol, jsTemplateStr]

/-- Witness for C9 at a concrete unrecognized category. -/
theorem C9_category_presentation_witness :
    (fullView "大村" 12 respUnknownCat).iconText = ""
    ∧ (fullView "大村" 12 respUnknownCat).categoryClass
      = "inline-block px-4 py-2 rounded-full font-bold undefined" := by
  have h := C9_category_presentation "大村" 12 respUnknownCat "weird" rfl
    (by decide) (by decide) (by decide)
  exact ⟨h.2.2.2.2.2.2.1, h.2.2.2.2.2.2.2.1⟩

/-- Claim C10: the full-analysis view always renders the expected value
with a literal plus sign before the formatted number (a value of -5
displays as the text +-5.0%), while the skip view renders the same field
with no sign before the number. -/
theorem C10_plus_sign_expected_value (v : String) (n : Nat) (r : Response) :
    (fullView v n r).evText = fullEvCell r
    ∧ (skipView r).evText = skipEvCell r
    ∧ fullEvCell r = "+" ++ skipEvCell r
    ∧ (r.expected_value = some (-5 : ℚ) →
        fullEvCell r = "+-5.0%" ∧ skipEvCell r = "-5.0%") := by
  refine ⟨rfl, rfl, ?_, fun h => ?_⟩
  · simp [fullEvCell, skipEvCell, String.append_assoc]
  · constructor <;> simp [fullEvCell, skipEvCell, h, jsxText] <;> decide

/-- Witness for C10 at a concrete response with expected value -5. -/
theorem C10_plus_sign_expected_value_witness :
    fullEvCell respSkipBoth = "+-5.0%" ∧ skipEvCell respSkipBoth = "-5.0%" :=
  (C10_plus_sign_expected_value "大村" 12 respSkipBoth).2.2.2 rfl

end Kyotei
